import Mathlib

/-!
Shallow embedding of the `wixe` widget-composition core (src/src/main.rs).

The Rust core uses `f32` for all geometric quantities; since the claims under
verification concern the exact arithmetic expressions the code evaluates
(sums, maxima, products by the constants 10 and 1.2), `f32` is modelled by
the exact rationals `ℚ`.  Machine strings are Lean `String`s, `u8` channels
are `Nat`, and a Rust panic (`assert!` / `unreachable!`) is modelled by an
`Option` result.  Mutation through `&mut self` is modelled by state passing:
an operation on a widget returns its result together with the widget's
post-state.
-/

namespace Wixe

/-- Text alignment, from `enum TextAlignment` in main.rs. -/
inductive TextAlignment where
  | left
  | center
  | right
  | justify
deriving DecidableEq, Repr

/-- RGBA color with 8-bit channels, from `struct Color`. -/
structure Color where
  r : Nat
  g : Nat
  b : Nat
  a : Nat
deriving DecidableEq, Repr

/-- `impl Default for Color`: opaque black. -/
def Color.default : Color := { r := 0, g := 0, b := 0, a := 255 }

/-- 2-D point, from `struct Point` (fields `x y : f32`). -/
structure Point where
  x : ℚ
  y : ℚ
deriving DecidableEq, Repr

/-- Width/height pair, from `struct Size`. -/
structure Size where
  width : ℚ
  height : ℚ
deriving DecidableEq, Repr

/-- Layout constraint bounds, from `struct LayoutConstraint`. -/
structure LayoutConstraint where
  min_width : ℚ
  max_width : ℚ
  min_height : ℚ
  max_height : ℚ
deriving DecidableEq, Repr

/-- `#[derive(Default)]` on `LayoutConstraint`: all bounds zero. -/
def LayoutConstraint.default : LayoutConstraint :=
  { min_width := 0, max_width := 0, min_height := 0, max_height := 0 }

/-- Key codes, from `enum KeyCode`. -/
inductive KeyCode where
  | space
  | enter
  | backspace
  | char (c : Char)
deriving DecidableEq, Repr

/-- User input events, from `enum CustomEvent`.  The `f64` payload of
`MouseWheel` is modelled by `ℚ`. -/
inductive CustomEvent where
  | click (p : Point)
  | hover (p : Point)
  | keyPress (k : KeyCode)
  | focusChange (b : Bool)
  | mouseWheel (delta : ℚ)
deriving DecidableEq, Repr

/-- Per-tick update context, from `struct UpdateContext {}` (empty). -/
structure UpdateContext where
deriving DecidableEq, Repr

/-- Render failures, from `enum RenderError`. -/
inductive RenderError where
  | GraphicsError (msg : String)
  | WindowError (msg : String)
deriving DecidableEq, Repr

/-- The external renderer contract (`trait Renderer`), restricted to the one
operation the widget tree's render traversal invokes (`draw_text`);
`begin_frame`/`end_frame`/`clear` are called only by the excluded driver.
`ρ` is the renderer's own mutable state, threaded through draw calls. -/
structure RendererM (ρ : Type) where
  draw_text : ρ → String → Point → ℚ → Color → TextAlignment → Except RenderError ρ

/-- Styled text leaf widget, from `struct TextWidget`. -/
structure TextWidget where
  text : String
  font_size : ℚ
  alignment : TextAlignment
  color : Color
deriving DecidableEq, Repr

/-- `TextWidget::new`: default font size 14, left aligned, default color. -/
def TextWidget.new (text : String) : TextWidget :=
  { text := text, font_size := 14, alignment := TextAlignment.left, color := Color.default }

/-- `TextWidget::with_alignment` builder. -/
def TextWidget.with_alignment (w : TextWidget) (alignment : TextAlignment) : TextWidget :=
  { w with alignment := alignment }

/-- `TextWidget::with_color` builder. -/
def TextWidget.with_color (w : TextWidget) (color : Color) : TextWidget :=
  { w with color := color }

/-- `TextWidget::with_font_size` builder. -/
def TextWidget.with_font_size (w : TextWidget) (size : ℚ) : TextWidget :=
  { w with font_size := size }

/-- `<TextWidget as Widget>::handle_event`: presentation-only, returns false
and does not touch `self`. -/
def TextWidget.handle_event (_w : TextWidget) (_e : CustomEvent) : Bool :=
  false

/-- `<TextWidget as Widget>::update`: returns false, no state change. -/
def TextWidget.update (_w : TextWidget) (_ctx : UpdateContext) : Bool :=
  false

/-- `<TextWidget as Widget>::layout`: intrinsic size from the font size only;
the constraint argument is accepted but unused. -/
def TextWidget.layout (w : TextWidget) (_constraints : LayoutConstraint) : Size :=
  { width := w.font_size * 10, height := w.font_size * 1.2 }

/-- `<TextWidget as Widget>::render`: one `draw_text` call. -/
def TextWidget.render {ρ : Type} (R : RendererM ρ) (w : TextWidget) (r : ρ)
    (position : Point) : Except RenderError ρ :=
  R.draw_text r w.text position w.font_size w.color w.alignment

/-- Heading widget, from `struct Heading` (a `TextWidget` plus its level). -/
structure Heading where
  base : TextWidget
  level : Nat
deriving DecidableEq, Repr

/-- The `match level` table inside `Heading::new`; its `_ => unreachable!()`
arm (a panic) is `none`. -/
def headingFontSize : Nat → Option ℚ
  | 1 => some 36
  | 2 => some 30
  | 3 => some 24
  | 4 => some 18
  | 5 => some 16
  | 6 => some 14
  | _ => none

/-- `Heading::new`: asserts `1 <= level <= 6` (panic, modelled as `none`,
when violated), then builds a `TextWidget` whose font size is taken from the
level table. -/
def Heading.new (text : String) (level : Nat) : Option Heading :=
  if 1 ≤ level ∧ level ≤ 6 then
    (headingFontSize level).map fun fs =>
      { base := { TextWidget.new text with font_size := fs }, level := level }
  else
    none

/-- Subheading widget, from `struct Subheading`. -/
structure Subheading where
  base : TextWidget
deriving DecidableEq, Repr

/-- `Subheading::new`: font size 16, alignment Left. -/
def Subheading.new (text : String) : Subheading :=
  { base := { TextWidget.new text with font_size := 16, alignment := TextAlignment.left } }

/-- Paragraph widget, from `struct Paragraph`. -/
structure Paragraph where
  base : TextWidget
deriving DecidableEq, Repr

/-- `Paragraph::new`: TextWidget defaults with alignment forced to Justify. -/
def Paragraph.new (text : String) : Paragraph :=
  { base := { TextWidget.new text with alignment := TextAlignment.justify } }

/-- Modelled from the spec: the `Button` widget is part of this repository
but absent from src/ (only the spec describes it, sections 3, 4.2 and 8).
It owns a label, an optional click callback and hovered/pressed flags.
The opaque callback closure is modelled by a presence flag together with an
invocation counter `invocations`, so that "invoked exactly once" is
observable as the counter increasing by one. -/
structure Button where
  label : String
  has_callback : Bool
  hovered : Bool
  pressed : Bool
  invocations : Nat
deriving DecidableEq, Repr

/-- Modelled from the spec: Button event handling.  `Click` with a callback
invokes it exactly once (counter +1) and returns true; `Click` without a
callback returns true with no effect; `Hover` sets the hovered flag and
returns true; `KeyPress`, `FocusChange` and `MouseWheel` return false. -/
def Button.handle_event (b : Button) : CustomEvent → Bool × Button
  | CustomEvent.click _ =>
      if b.has_callback then (true, { b with invocations := b.invocations + 1 })
      else (true, b)
  | CustomEvent.hover _ => (true, { b with hovered := true })
  | CustomEvent.keyPress _ => (false, b)
  | CustomEvent.focusChange _ => (false, b)
  | CustomEvent.mouseWheel _ => (false, b)

/-- Modelled from the spec: Button update behavior is not described beyond
the general contract; modelled as reporting no visual change. -/
def Button.update (_b : Button) (_ctx : UpdateContext) : Bool :=
  false

/-- Modelled from the spec: `Button.layout` ignores constraints and always
returns the fixed size 100 x 30 (spec section 4.2). -/
def Button.layout (_b : Button) (_constraints : LayoutConstraint) : Size :=
  { width := 100, height := 30 }

/-- Modelled from the spec: Button rendering is not described; modelled as a
single `draw_text` of the label at the given position with the TextWidget
default font size, color and alignment. -/
def Button.render {ρ : Type} (R : RendererM ρ) (b : Button) (r : ρ)
    (position : Point) : Except RenderError ρ :=
  R.draw_text r b.label position 14 Color.default TextAlignment.left

/-- A widget node: the closed set of `impl Widget` types of the repository.
`Container` (`struct Container { children: Vec<Box<dyn Widget>> }`) is the
`container` constructor, whose ordered child list is the `Vec` in insertion
order. -/
inductive Widget where
  | text (w : TextWidget)
  | heading (h : Heading)
  | subheading (s : Subheading)
  | paragraph (p : Paragraph)
  | button (b : Button)
  | container (children : List Widget)

mutual

/-- `Widget::handle_event` dispatch.  Each leaf follows its `impl`
(`Heading`/`Subheading`/`Paragraph` delegate to `self.base`); a container
runs the loop of `<Container as Widget>::handle_event` over its children.
The returned widget is the post-state of the `&mut self` receiver. -/
def Widget.handle_event : Widget → CustomEvent → Bool × Widget
  | Widget.text w, e => (TextWidget.handle_event w e, Widget.text w)
  | Widget.heading h, e => (TextWidget.handle_event h.base e, Widget.heading h)
  | Widget.subheading s, e => (TextWidget.handle_event s.base e, Widget.subheading s)
  | Widget.paragraph p, e => (TextWidget.handle_event p.base e, Widget.paragraph p)
  | Widget.button b, e =>
      let r := Button.handle_event b e
      (r.1, Widget.button r.2)
  | Widget.container cs, e =>
      let r := handleEventChildren cs e
      (r.1, Widget.container r.2)

/-- The child loop of `<Container as Widget>::handle_event`:
`for child in children { if child.handle_event(event) { return true; } }
false`.  On the first child returning true the loop exits at once, so the
remaining children are left untouched. -/
def handleEventChildren : List Widget → CustomEvent → Bool × List Widget
  | [], _ => (false, [])
  | c :: cs, e =>
      let r := Widget.handle_event c e
      if r.1 then (true, r.2 :: cs)
      else
        let rest := handleEventChildren cs e
        (rest.1, r.2 :: rest.2)

end

mutual

/-- `Widget::update` dispatch, by the same pattern as `handle_event`. -/
def Widget.update : Widget → UpdateContext → Bool × Widget
  | Widget.text w, ctx => (TextWidget.update w ctx, Widget.text w)
  | Widget.heading h, ctx => (TextWidget.update h.base ctx, Widget.heading h)
  | Widget.subheading s, ctx => (TextWidget.update s.base ctx, Widget.subheading s)
  | Widget.paragraph p, ctx => (TextWidget.update p.base ctx, Widget.paragraph p)
  | Widget.button b, ctx => (Button.update b ctx, Widget.button b)
  | Widget.container cs, ctx =>
      let r := updateChildren cs ctx false
      (r.1, Widget.container r.2)

/-- The child loop of `<Container as Widget>::update`, with the running
`updated` flag as accumulator:
`let mut updated = false; for child { if child.update(ctx) { updated = true } }
updated`.  Every child is visited unconditionally. -/
def updateChildren : List Widget → UpdateContext → Bool → Bool × List Widget
  | [], _, updated => (updated, [])
  | c :: cs, ctx, updated =>
      let r := Widget.update c ctx
      let rest := updateChildren cs ctx (if r.1 then true else updated)
      (rest.1, r.2 :: rest.2)

end

mutual

/-- `Widget::layout` dispatch.  Leaves compute their intrinsic size without
touching their state; a container runs the accumulation loop of
`<Container as Widget>::layout`. -/
def Widget.layout : Widget → LayoutConstraint → Size × Widget
  | Widget.text w, k => (TextWidget.layout w k, Widget.text w)
  | Widget.heading h, k => (TextWidget.layout h.base k, Widget.heading h)
  | Widget.subheading s, k => (TextWidget.layout s.base k, Widget.subheading s)
  | Widget.paragraph p, k => (TextWidget.layout p.base k, Widget.paragraph p)
  | Widget.button b, k => (Button.layout b k, Widget.button b)
  | Widget.container cs, k =>
      let r := layoutChildren cs k 0 0
      (r.1, Widget.container r.2)

/-- The child loop of `<Container as Widget>::layout`, with the running
accumulators `total_height` and `max_width` (both starting at 0):
each child receives the same `constraints`; then
`total_height += child_size.height; max_width = max_width.max(child_size.width)`. -/
def layoutChildren : List Widget → LayoutConstraint → ℚ → ℚ → Size × List Widget
  | [], _, total_height, max_width =>
      ({ width := max_width, height := total_height }, [])
  | c :: cs, k, total_height, max_width =>
      let r := Widget.layout c k
      let rest := layoutChildren cs k (total_height + r.1.height) (max max_width r.1.width)
      (rest.1, r.2 :: rest.2)

end

mutual

/-- `Widget::render` dispatch.  No widget implementation in the repository
mutates its own state during `render` or during the `layout` recomputation
inside `Container::render`, so the widget post-state is omitted and only the
renderer state `ρ` is threaded (errors short-circuit as the Rust `?` does). -/
def Widget.render {ρ : Type} (R : RendererM ρ) : Widget → ρ → Point → Except RenderError ρ
  | Widget.text w, r, position => TextWidget.render R w r position
  | Widget.heading h, r, position => TextWidget.render R h.base r position
  | Widget.subheading s, r, position => TextWidget.render R s.base r position
  | Widget.paragraph p, r, position => TextWidget.render R p.base r position
  | Widget.button b, r, position => Button.render R b r position
  | Widget.container cs, r, position => renderChildren R cs r position

/-- The child loop of `<Container as Widget>::render`:
`child.render(renderer, current_pos)?;
current_pos.y += child.layout(&LayoutConstraint::default()).height;`.
The cursor starts at the container's own position and layout is re-invoked
per child with default constraints to obtain the advance. -/
def renderChildren {ρ : Type} (R : RendererM ρ) : List Widget → ρ → Point → Except RenderError ρ
  | [], r, _ => Except.ok r
  | c :: cs, r, current_pos =>
      match Widget.render R c r current_pos with
      | Except.error e => Except.error e
      | Except.ok r1 =>
          renderChildren R cs r1
            { current_pos with
                y := current_pos.y + (Widget.layout c LayoutConstraint.default).1.height }

end

/-! ### Helper lemmas about the traversal loops -/

theorem handleEventChildren_all_false (e : CustomEvent) :
    ∀ cs : List Widget, (∀ c ∈ cs, (Widget.handle_event c e).1 = false) →
      handleEventChildren cs e = (false, cs.map fun c => (Widget.handle_event c e).2)
  | [], _ => by simp [handleEventChildren]
  | c :: cs, h => by
      have hc : (Widget.handle_event c e).1 = false := h c (by simp)
      have ih := handleEventChildren_all_false e cs (fun x hx => h x (by simp [hx]))
      simp [handleEventChildren, hc, ih]

theorem handleEventChildren_first_true (e : CustomEvent) (c : Widget) (post : List Widget)
    (hc : (Widget.handle_event c e).1 = true) :
    ∀ pre : List Widget, (∀ p ∈ pre, (Widget.handle_event p e).1 = false) →
      handleEventChildren (pre ++ c :: post) e =
        (true, (pre.map fun p => (Widget.handle_event p e).2) ++
          (Widget.handle_event c e).2 :: post)
  | [], _ => by simp [handleEventChildren, hc]
  | p :: pre, h => by
      have hp : (Widget.handle_event p e).1 = false := h p (by simp)
      have ih := handleEventChildren_first_true e c post hc pre
        (fun x hx => h x (by simp [hx]))
      simp [handleEventChildren, hp, ih]

theorem handleEventChildren_fst (e : CustomEvent) :
    ∀ cs : List Widget,
      (handleEventChildren cs e).1 = cs.any fun c => (Widget.handle_event c e).1
  | [] => by simp [handleEventChildren]
  | c :: cs => by
      have ih := handleEventChildren_fst e cs
      by_cases hc : (Widget.handle_event c e).1 = true
      · simp [handleEventChildren, hc]
      · simp only [Bool.not_eq_true] at hc
        simp [handleEventChildren, hc, ih]

theorem updateChildren_spec (ctx : UpdateContext) :
    ∀ (cs : List Widget) (acc : Bool),
      updateChildren cs ctx acc =
        ((acc || cs.any fun c => (Widget.update c ctx).1),
         cs.map fun c => (Widget.update c ctx).2)
  | [], acc => by simp [updateChildren]
  | c :: cs, acc => by
      have ih := updateChildren_spec ctx cs (if (Widget.update c ctx).1 then true else acc)
      simp only [updateChildren, ih, List.any_cons, List.map_cons]
      cases hb : (Widget.update c ctx).1 <;> cases acc <;> simp

theorem layoutChildren_spec (k : LayoutConstraint) :
    ∀ (cs : List Widget) (th mw : ℚ),
      layoutChildren cs k th mw =
        ({ width := (cs.map fun c => (Widget.layout c k).1.width).foldl max mw,
           height := th + (cs.map fun c => (Widget.layout c k).1.height).sum },
         cs.map fun c => (Widget.layout c k).2)
  | [], th, mw => by simp [layoutChildren]
  | c :: cs, th, mw => by
      have ih := layoutChildren_spec k cs (th + (Widget.layout c k).1.height)
        (max mw (Widget.layout c k).1.width)
      simp only [layoutChildren, ih, List.map_cons, List.foldl_cons, List.sum_cons]
      rw [add_assoc]

theorem le_foldl_max (l : List ℚ) : ∀ a : ℚ, a ≤ l.foldl max a := by
  induction l with
  | nil => intro a; simp
  | cons y l ih => intro a; exact le_trans (le_max_left a y) (ih (max a y))

theorem foldl_max_le (l : List ℚ) : ∀ (a : ℚ) (x : ℚ), x ∈ l → x ≤ l.foldl max a := by
  induction l with
  | nil => intro a x hx; simp at hx
  | cons y l ih =>
      intro a x hx
      rcases List.mem_cons.mp hx with h | h
      · subst h
        simp only [List.foldl_cons]
        exact le_trans (le_max_right a x) (le_foldl_max l (max a x))
      · exact ih (max a y) x h

theorem foldl_max_mem (l : List ℚ) : ∀ a : ℚ, l.foldl max a = a ∨ l.foldl max a ∈ l := by
  induction l with
  | nil => intro a; simp
  | cons y l ih =>
      intro a
      rcases ih (max a y) with h | h
      · rcases max_cases a y with ⟨hm, _⟩ | ⟨hm, _⟩
        · left
          simp only [List.foldl_cons]
          rw [h, hm]
        · right
          simp only [List.foldl_cons]
          rw [h, hm]
          exact List.mem_cons_self y l
      · right
        simp only [List.foldl_cons]
        exact List.mem_cons_of_mem y h

mutual

theorem Widget.layout_snd : ∀ (w : Widget) (k : LayoutConstraint), (Widget.layout w k).2 = w
  | Widget.text w, k => by simp [Widget.layout]
  | Widget.heading h, k => by simp [Widget.layout]
  | Widget.subheading s, k => by simp [Widget.layout]
  | Widget.paragraph p, k => by simp [Widget.layout]
  | Widget.button b, k => by simp [Widget.layout]
  | Widget.container cs, k => by
      simp [Widget.layout, layoutChildren_snd cs k 0 0]

theorem layoutChildren_snd :
    ∀ (cs : List Widget) (k : LayoutConstraint) (th mw : ℚ), (layoutChildren cs k th mw).2 = cs
  | [], k, th, mw => by simp [layoutChildren]
  | c :: cs, k, th, mw => by
      simp [layoutChildren, Widget.layout_snd c k,
        layoutChildren_snd cs k (th + (Widget.layout c k).1.height)
          (max mw (Widget.layout c k).1.width)]

end

theorem renderChildren_append {ρ : Type} (R : RendererM ρ) :
    ∀ (xs ys : List Widget) (r : ρ) (p : Point),
      renderChildren R (xs ++ ys) r p =
        match renderChildren R xs r p with
        | Except.error e => Except.error e
        | Except.ok r1 =>
            renderChildren R ys r1
              { p with y := p.y +
                  (xs.map fun w => (Widget.layout w LayoutConstraint.default).1.height).sum }
  | [], ys, r, p => by simp [renderChildren]
  | x :: xs, ys, r, p => by
      simp only [List.cons_append, renderChildren]
      cases hx : Widget.render R x r p with
      | error e => rfl
      | ok r1 =>
          have ih := renderChildren_append R xs ys r1
            { p with y := p.y + (Widget.layout x LayoutConstraint.default).1.height }
          simp only [List.append_eq] at ih ⊢
          rw [ih]
          simp only [List.map_cons, List.sum_cons, add_assoc]

/-! ### Claim theorems -/

/-- C4: `Heading::new(text, level)` with level in [1,6] yields the exact
font sizes 36, 30, 24, 18, 16, 14 for levels 1..6, and for every level
outside [1,6] construction fails (panics, modelled as `none`) and never
produces a Heading value. -/
theorem heading_new_font_size_table (text : String) :
    ((Heading.new text 1).map fun h => h.base.font_size) = some 36
  ∧ ((Heading.new text 2).map fun h => h.base.font_size) = some 30
  ∧ ((Heading.new text 3).map fun h => h.base.font_size) = some 24
  ∧ ((Heading.new text 4).map fun h => h.base.font_size) = some 18
  ∧ ((Heading.new text 5).map fun h => h.base.font_size) = some 16
  ∧ ((Heading.new text 6).map fun h => h.base.font_size) = some 14
  ∧ ∀ level : Nat, ¬(1 ≤ level ∧ level ≤ 6) → Heading.new text level = none := by
  refine ⟨by simp [Heading.new, headingFontSize], by simp [Heading.new, headingFontSize],
    by simp [Heading.new, headingFontSize], by simp [Heading.new, headingFontSize],
    by simp [Heading.new, headingFontSize], by simp [Heading.new, headingFontSize], ?_⟩
  intro level h
  simp [Heading.new, h]

/-- Witness for C4: levels 0 and 7 fail construction. -/
theorem heading_new_font_size_table_witness :
    Heading.new "x" 0 = none ∧ Heading.new "x" 7 = none :=
  ⟨(heading_new_font_size_table "x").2.2.2.2.2.2 0 (by decide),
   (heading_new_font_size_table "x").2.2.2.2.2.2 7 (by decide)⟩

/-- C5: `TextWidget::layout` returns width = font_size * 10 and
height = font_size * 1.2 in every internal state, leaves the widget
unchanged, and ignores the constraint bounds entirely (the result is the
same for any two constraint objects). -/
theorem textwidget_layout_intrinsic (w : TextWidget) (k : LayoutConstraint) :
    Widget.layout (Widget.text w) k
      = ({ width := w.font_size * 10, height := w.font_size * 1.2 }, Widget.text w)
  ∧ ∀ k' : LayoutConstraint, Widget.layout (Widget.text w) k = Widget.layout (Widget.text w) k' := by
  constructor
  · simp [Widget.layout, TextWidget.layout]
  · intro k'
    simp [Widget.layout, TextWidget.layout]

/-- C6: the presentation-only widgets TextWidget, Heading, Subheading and
Paragraph return false from `handle_event` for every event variant and
false from `update` for every context, in every internal state. -/
theorem presentation_widgets_inert (w : TextWidget) (h : Heading) (s : Subheading)
    (p : Paragraph) (e : CustomEvent) (ctx : UpdateContext) :
    (Widget.handle_event (Widget.text w) e).1 = false
  ∧ (Widget.update (Widget.text w) ctx).1 = false
  ∧ (Widget.handle_event (Widget.heading h) e).1 = false
  ∧ (Widget.update (Widget.heading h) ctx).1 = false
  ∧ (Widget.handle_event (Widget.subheading s) e).1 = false
  ∧ (Widget.update (Widget.subheading s) ctx).1 = false
  ∧ (Widget.handle_event (Widget.paragraph p) e).1 = false
  ∧ (Widget.update (Widget.paragraph p) ctx).1 = false := by
  refine ⟨?_, ?_, ?_, ?_, ?_, ?_, ?_, ?_⟩ <;>
    simp [Widget.handle_event, Widget.update, TextWidget.handle_event, TextWidget.update]

/-- C7: Button event handling.  `Click` with a registered callback invokes
the callback exactly once (the invocation counter increases by exactly one
in the state returned by `handle_event`, i.e. synchronously before it
returns) and returns true; `Click` with no callback returns true and
changes nothing; `Hover` sets the hovered flag and returns true; `KeyPress`,
`FocusChange` and `MouseWheel` return false and change nothing. -/
theorem button_handle_event_cases (b : Button) (pt : Point) (kc : KeyCode)
    (fl : Bool) (d : ℚ) :
    (b.has_callback = true →
      Button.handle_event b (CustomEvent.click pt)
        = (true, { b with invocations := b.invocations + 1 }))
  ∧ (b.has_callback = false →
      Button.handle_event b (CustomEvent.click pt) = (true, b))
  ∧ Button.handle_event b (CustomEvent.hover pt) = (true, { b with hovered := true })
  ∧ Button.handle_event b (CustomEvent.keyPress kc) = (false, b)
  ∧ Button.handle_event b (CustomEvent.focusChange fl) = (false, b)
  ∧ Button.handle_event b (CustomEvent.mouseWheel d) = (false, b) := by
  refine ⟨?_, ?_, ?_, ?_, ?_, ?_⟩ <;>
    intros <;> simp_all [Button.handle_event]

/-- Witness for C7: a concrete button with a callback, clicked once. -/
theorem button_handle_event_cases_witness :
    Button.handle_event (Button.mk "ok" true false false 0)
        (CustomEvent.click (Point.mk 1 2))
      = (true, Button.mk "ok" true false false 1) :=
  (button_handle_event_cases (Button.mk "ok" true false false 0)
      (Point.mk 1 2) KeyCode.space false 0).1 rfl

/-- C9: for every widget node in any internal state, `layout` is pure and
idempotent: it leaves the widget's state unchanged (so in particular no
event is handled and no callback invocation counter moves), and a second
call with the same constraints returns the same result. -/
theorem layout_pure_idempotent (w : Widget) (k : LayoutConstraint) :
    (Widget.layout w k).2 = w
  ∧ Widget.layout (Widget.layout w k).2 k = Widget.layout w k := by
  refine ⟨Widget.layout_snd w k, ?_⟩
  rw [Widget.layout_snd w k]

/-- C10: each TextWidget builder sets exactly its named field and leaves
the other three fields (in particular the text content) unchanged. -/
theorem textwidget_builders_frame (w : TextWidget) (s : ℚ) (a : TextAlignment)
    (c : Color) :
    (w.with_font_size s).font_size = s
  ∧ (w.with_font_size s).text = w.text
  ∧ (w.with_font_size s).alignment = w.alignment
  ∧ (w.with_font_size s).color = w.color
  ∧ (w.with_alignment a).alignment = a
  ∧ (w.with_alignment a).text = w.text
  ∧ (w.with_alignment a).font_size = w.font_size
  ∧ (w.with_alignment a).color = w.color
  ∧ (w.with_color c).color = c
  ∧ (w.with_color c).text = w.text
  ∧ (w.with_color c).font_size = w.font_size
  ∧ (w.with_color c).alignment = w.alignment := by
  refine ⟨?_, ?_, ?_, ?_, ?_, ?_, ?_, ?_, ?_, ?_, ?_, ?_⟩ <;>
    simp [TextWidget.with_font_size, TextWidget.with_alignment, TextWidget.with_color]

/-- C1: `Container::handle_event` iterates the children in stored order and
returns true at the first child whose `handle_event` returns true, leaving
every later child untouched (the event is never delivered past the consumer);
if no child returns true — in particular for an empty container — it returns
false, every child having seen the event. -/
theorem container_handle_event_dispatch (e : CustomEvent) :
    Widget.handle_event (Widget.container []) e = (false, Widget.container [])
  ∧ (∀ (pre : List Widget) (c : Widget) (post : List Widget),
      (∀ p ∈ pre, (Widget.handle_event p e).1 = false) →
      (Widget.handle_event c e).1 = true →
      Widget.handle_event (Widget.container (pre ++ c :: post)) e =
        (true, Widget.container
          ((pre.map fun p => (Widget.handle_event p e).2) ++
            (Widget.handle_event c e).2 :: post)))
  ∧ (∀ cs : List Widget, (∀ c ∈ cs, (Widget.handle_event c e).1 = false) →
      Widget.handle_event (Widget.container cs) e =
        (false, Widget.container (cs.map fun c => (Widget.handle_event c e).2))) := by
  refine ⟨?_, ?_, ?_⟩
  · simp [Widget.handle_event, handleEventChildren]
  · intro pre c post hpre hc
    simp [Widget.handle_event, handleEventChildren_first_true e c post hc pre hpre]
  · intro cs hcs
    simp [Widget.handle_event, handleEventChildren_all_false e cs hcs]

/-- Witness for C1: in a container [text, button, text], a Click is consumed
by the button and the trailing text child is left untouched. -/
theorem container_handle_event_dispatch_witness :
    Widget.handle_event
        (Widget.container [Widget.text (TextWidget.new "a"),
          Widget.button (Button.mk "ok" false false false 0),
          Widget.text (TextWidget.new "z")])
        (CustomEvent.click (Point.mk 0 0))
      = (true, Widget.container [Widget.text (TextWidget.new "a"),
          Widget.button (Button.mk "ok" false false false 0),
          Widget.text (TextWidget.new "z")]) := by
  have h := (container_handle_event_dispatch (CustomEvent.click (Point.mk 0 0))).2.1
    [Widget.text (TextWidget.new "a")]
    (Widget.button (Button.mk "ok" false false false 0))
    [Widget.text (TextWidget.new "z")]
    (by
      intro p hp
      simp only [List.mem_singleton] at hp
      subst hp
      simp [Widget.handle_event, TextWidget.handle_event])
    (by simp [Widget.handle_event, Button.handle_event])
  simpa [Widget.handle_event, TextWidget.handle_event, Button.handle_event] using h

/-- C2: `Container::layout` lays out every child once with the very
constraints the container received; the resulting height is the sum of the
children's heights, the resulting width is the maximum of the children's
widths (for a nonempty container with the nonnegative widths every widget
of the spec's data model produces — font sizes are positive there), the
children's states are exactly the per-child layout post-states, and an
empty container yields Size 0 x 0. -/
theorem container_layout_aggregate (cs : List Widget) (k : LayoutConstraint)
    (hw : ∀ c ∈ cs, 0 ≤ (Widget.layout c k).1.width) :
    (Widget.layout (Widget.container cs) k).1.height
        = (cs.map fun c => (Widget.layout c k).1.height).sum
  ∧ (Widget.layout (Widget.container cs) k).2
        = Widget.container (cs.map fun c => (Widget.layout c k).2)
  ∧ (cs ≠ [] →
      ((Widget.layout (Widget.container cs) k).1.width
          ∈ cs.map fun c => (Widget.layout c k).1.width)
      ∧ ∀ x ∈ cs.map fun c => (Widget.layout c k).1.width,
          x ≤ (Widget.layout (Widget.container cs) k).1.width)
  ∧ Widget.layout (Widget.container []) k
      = ({ width := 0, height := 0 }, Widget.container []) := by
  have hspec := layoutChildren_spec k cs 0 0
  refine ⟨?_, ?_, ?_, ?_⟩
  · simp [Widget.layout, hspec]
  · simp [Widget.layout, hspec]
  · intro hne
    have hmem : (Widget.layout (Widget.container cs) k).1.width
        ∈ cs.map fun c => (Widget.layout c k).1.width := by
      have hcases := foldl_max_mem (cs.map fun c => (Widget.layout c k).1.width) 0
      rcases hcases with h0 | hmem
      · obtain ⟨c0, hc0⟩ := List.exists_mem_of_ne_nil cs hne
        have hle : (Widget.layout c0 k).1.width
            ≤ (cs.map fun c => (Widget.layout c k).1.width).foldl max 0 :=
          foldl_max_le _ 0 _ (List.mem_map_of_mem _ hc0)
        have hge : 0 ≤ (Widget.layout c0 k).1.width := hw c0 hc0
        have hc0w : (Widget.layout c0 k).1.width = 0 := le_antisymm (by rw [h0] at hle; exact hle) hge
        simp only [Widget.layout, hspec]
        rw [h0, ← hc0w]
        exact List.mem_map_of_mem _ hc0
      · simpa [Widget.layout, hspec] using hmem
    refine ⟨hmem, ?_⟩
    intro x hx
    simp only [Widget.layout, hspec]
    exact foldl_max_le _ 0 x hx
  · simp [Widget.layout, layoutChildren]

/-- Witness for C2: the spec's own scenario — a level-1 heading (font 36)
above a paragraph (font 14) gives height 43.2 + 16.8 = 60 and width
max(360, 140) = 360. -/
theorem container_layout_aggregate_witness :
    (Widget.layout
        (Widget.container [Widget.heading (Heading.mk (TextWidget.mk "Welcome" 36
            TextAlignment.left Color.default) 1),
          Widget.paragraph (Paragraph.new "x")])
        LayoutConstraint.default).1.height = 60
  ∧ ((Widget.layout
        (Widget.container [Widget.heading (Heading.mk (TextWidget.mk "Welcome" 36
            TextAlignment.left Color.default) 1),
          Widget.paragraph (Paragraph.new "x")])
        LayoutConstraint.default).1.width
      ∈ [Widget.heading (Heading.mk (TextWidget.mk "Welcome" 36
            TextAlignment.left Color.default) 1),
          Widget.paragraph (Paragraph.new "x")].map
          fun c => (Widget.layout c LayoutConstraint.default).1.width) := by
  have h := container_layout_aggregate
    [Widget.heading (Heading.mk (TextWidget.mk "Welcome" 36 TextAlignment.left Color.default) 1),
      Widget.paragraph (Paragraph.new "x")]
    LayoutConstraint.default
    (by
      intro c hc
      simp only [List.mem_cons, List.not_mem_nil, or_false] at hc
      rcases hc with hc | hc <;>
        · subst hc
          norm_num [Widget.layout, TextWidget.layout, Paragraph.new, TextWidget.new])
  refine ⟨?_, (h.2.2.1 (by simp)).1⟩
  rw [h.1]
  simp [Widget.layout, TextWidget.layout, Paragraph.new, TextWidget.new]
  norm_num

/-- C3: `Container::update` updates every child exactly once, with no
short-circuit (each child's post-state appears in the container's
post-state), and returns true iff at least one child's update returned
true; an empty container returns false. -/
theorem container_update_or (cs : List Widget) (ctx : UpdateContext) :
    ((Widget.update (Widget.container cs) ctx).1 = true ↔
      ∃ c ∈ cs, (Widget.update c ctx).1 = true)
  ∧ (Widget.update (Widget.container cs) ctx).2
      = Widget.container (cs.map fun c => (Widget.update c ctx).2)
  ∧ Widget.update (Widget.container []) ctx = (false, Widget.container []) := by
  have hspec := updateChildren_spec ctx cs false
  refine ⟨?_, ?_, ?_⟩
  · simp only [Widget.update, hspec, Bool.false_or]
    exact List.any_eq_true
  · simp [Widget.update, hspec]
  · simp [Widget.update, updateChildren]

/-- Witness for C3: a container holding one text widget reports no update,
since its only child reports none. -/
theorem container_update_or_witness :
    (Widget.update (Widget.container [Widget.text (TextWidget.new "a")])
        UpdateContext.mk).1 = false := by
  have h := (container_update_or [Widget.text (TextWidget.new "a")] UpdateContext.mk).1
  rw [← Bool.not_eq_true]
  intro htrue
  rcases h.mp htrue with ⟨c, hc, hct⟩
  simp only [List.mem_singleton] at hc
  subst hc
  simp [Widget.update, TextWidget.update] at hct

/-- C8: `Container::render` renders the children in stored order at a cursor
that starts at the container's position and advances, after each child, by
that child's height as recomputed by `layout` with default constraints; a
child's render error skips all later children and is returned to the caller
unchanged (already-performed draw calls are not rolled back — the renderer
state the error traversal built up to that point stands). -/
theorem container_render_cursor_error {ρ : Type} (R : RendererM ρ) (r : ρ)
    (p : Point) (err : RenderError) :
    (∀ xs ys : List Widget,
      Widget.render R (Widget.container (xs ++ ys)) r p =
        match renderChildren R xs r p with
        | Except.error e => Except.error e
        | Except.ok r1 =>
            renderChildren R ys r1
              { p with y := p.y +
                  (xs.map fun w => (Widget.layout w LayoutConstraint.default).1.height).sum })
  ∧ (∀ (pre post : List Widget) (c : Widget) (r1 : ρ),
      renderChildren R pre r p = Except.ok r1 →
      Widget.render R c r1
          { p with y := p.y +
              (pre.map fun w => (Widget.layout w LayoutConstraint.default).1.height).sum }
        = Except.error err →
      Widget.render R (Widget.container (pre ++ c :: post)) r p = Except.error err) := by
  constructor
  · intro xs ys
    simp only [Widget.render]
    exact renderChildren_append R xs ys r p
  · intro pre post c r1 hpre hc
    simp only [Widget.render]
    rw [renderChildren_append R pre (c :: post) r p, hpre]
    simp only [renderChildren, hc]

/-- Witness for C8: a renderer over a draw log that fails on the text
"fail"; in a container [text "a", text "fail", text "z"] the error from the
second child is returned and the third child is never rendered. -/
theorem container_render_cursor_error_witness :
    Widget.render
        (RendererM.mk fun (log : List String) t _ _ _ _ =>
          if t = "fail" then Except.error (RenderError.GraphicsError "boom")
          else Except.ok (t :: log))
        (Widget.container [Widget.text (TextWidget.new "a"),
          Widget.text (TextWidget.new "fail"), Widget.text (TextWidget.new "z")])
        [] (Point.mk 20 20)
      = Except.error (RenderError.GraphicsError "boom") := by
  have h := (container_render_cursor_error
    (RendererM.mk fun (log : List String) t _ _ _ _ =>
      if t = "fail" then Except.error (RenderError.GraphicsError "boom")
      else Except.ok (t :: log))
    [] (Point.mk 20 20) (RenderError.GraphicsError "boom")).2
    [Widget.text (TextWidget.new "a")]
    [Widget.text (TextWidget.new "z")]
    (Widget.text (TextWidget.new "fail"))
    ["a"]
    (by simp [renderChildren, Widget.render, TextWidget.render, TextWidget.new])
    (by simp [Widget.render, TextWidget.render, TextWidget.new])
  simpa using h

end Wixe
